import Mathlib

/-!
Verification of the code-summarizer repository.

The Python sources are shallowly embedded: pure logic becomes Lean
functions, mutable manager state becomes explicit state passing, and
exceptions become `Except`.  All definitions are executable so concrete
runs can be checked by `decide` / `simp` / `rfl`.
-/

/-! ## String helpers (ASCII, mirroring the Python operations used) -/

/-- Is `needle` an initial segment of `hay`? (list-of-chars version). -/
def isPre : List Char → List Char → Bool
  | [], _ => true
  | _ :: _, [] => false
  | a :: as, b :: bs => a == b && isPre as bs

/-- Does `hay` contain `needle` as a contiguous substring? -/
def hasSub (needle : List Char) : List Char → Bool
  | [] => isPre needle []
  | c :: rest => isPre needle (c :: rest) || hasSub needle rest

/-- Python `needle in hay` on strings. -/
def strContains (hay needle : String) : Bool :=
  hasSub needle.data hay.data

/-- Python `str.lower()` restricted to ASCII, which is all the source applies it to. -/
def lowerStr (s : String) : String :=
  ⟨s.data.map Char.toLower⟩

/-- Python `str.startswith` for a single-character pattern, used for comment lines. -/
def startsWithChar (s : String) (c : Char) : Bool :=
  match s.data with
  | [] => false
  | a :: _ => a == c

/-- Python `str.strip()`: drop ASCII whitespace from both ends. -/
def stripStr (s : String) : String :=
  ⟨(((s.data.dropWhile Char.isWhitespace).reverse).dropWhile Char.isWhitespace).reverse⟩

/-! ## fnmatch-style glob matching (`fnmatch.fnmatch` on POSIX)

`*` matches any sequence, `?` any single character, `[seq]` a character
class with ranges and `!` negation; an unterminated `[` is a literal.
Fuel-based so that the kernel can evaluate it. -/

/-- Does character `c` fall in the class body `body` (ranges `a-z` supported)? -/
def inClass (c : Char) : List Char → Bool
  | a :: '-' :: b :: rest =>
    (a ≤ c && c ≤ b) || inClass c rest
  | a :: rest => (a == c) || inClass c rest
  | [] => false

/-- Split a character-class body at the closing bracket, if one exists.
Mirrors fnmatch: the scan for the closing bracket starts after an optional
leading `!` and an optional leading `]`. -/
def splitClass (cs : List Char) : Option (List Char × List Char) :=
  let start : List Char × List Char :=
    match cs with
    | '!' :: ']' :: rest => (['!', ']'], rest)
    | '!' :: rest => (['!'], rest)
    | ']' :: rest => ([']'], rest)
    | rest => ([], rest)
  let rec go (acc : List Char) : List Char → Option (List Char × List Char)
    | [] => none
    | ']' :: rest => some (acc, rest)
    | c :: rest => go (acc ++ [c]) rest
  match go [] start.2 with
  | none => none
  | some (body, rest) => some (start.1 ++ body, rest)

/-- Glob matching with fuel (fuel bounds pattern length + string length). -/
def globMatch : Nat → List Char → List Char → Bool
  | 0, _, _ => false
  | _ + 1, [], s => s.isEmpty
  | fuel + 1, '*' :: p, s =>
    globMatch fuel p s ||
      (match s with
       | [] => false
       | _ :: s2 => globMatch fuel ('*' :: p) s2)
  | fuel + 1, '?' :: p, s =>
    (match s with
     | [] => false
     | _ :: s2 => globMatch fuel p s2)
  | fuel + 1, '[' :: p, s =>
    (match splitClass p with
     | some (body, prest) =>
       (match s with
        | [] => false
        | c :: s2 =>
          let hit :=
            match body with
            | '!' :: negBody => !(inClass c negBody)
            | _ => inClass c body
          hit && globMatch fuel prest s2)
     | none =>
       (match s with
        | [] => false
        | c :: s2 => (c == '[') && globMatch fuel p s2))
  | fuel + 1, a :: p, s =>
    (match s with
     | [] => false
     | c :: s2 => (a == c) && globMatch fuel p s2)

/-- Python `fnmatch.fnmatch(name, pat)` on POSIX (no case folding). -/
def fnmatchStr (name pat : String) : Bool :=
  globMatch (pat.length + name.length + 1) pat.data name.data

/-! ## Path helpers (pathlib behavior used by the source) -/

/-- Final path component (`Path.name`). -/
def afterLastSlash (cs : List Char) : List Char :=
  cs.foldl (fun acc c => if c == '/' then [] else acc ++ [c]) []

/-- Index of the last dot of `cs`, if any. -/
def lastDotIdx (cs : List Char) : Option Nat :=
  (cs.foldl
    (fun st c =>
      match st with
      | (i, best) => (i + 1, if c == '.' then some i else best))
    ((0 : Nat), (none : Option Nat))).2

/-- Python `Path.suffix`: the last dot-suffix of the final component, where
the dot must be neither the first nor the last character of the name. -/
def suffixOf (p : String) : String :=
  let name := afterLastSlash p.data
  match lastDotIdx name with
  | none => ""
  | some i => if 0 < i ∧ i + 1 < name.length then ⟨name.drop i⟩ else ""

/-- Join a root-relative directory path with an entry name. -/
def joinRel (d n : String) : String :=
  if d = "" then n else d ++ "/" ++ n

/-! ## file_processor.py: constants and discovery -/

/-- EXTENSION_TO_LANGUAGE from file_processor.py (21 entries). -/
def EXTENSION_TO_LANGUAGE : List (String × String) :=
  [(".py", "Python"), (".js", "JavaScript"), (".ts", "TypeScript"),
   (".jsx", "JavaScript (React)"), (".tsx", "TypeScript (React)"),
   (".java", "Java"), (".cpp", "C++"), (".c", "C"), (".go", "Go"),
   (".rb", "Ruby"), (".php", "PHP"), (".cs", "C#"), (".swift", "Swift"),
   (".rs", "Rust"), (".kt", "Kotlin"), (".scala", "Scala"),
   (".vue", "Vue.js"), (".html", "HTML"), (".css", "CSS"),
   (".scss", "SCSS"), (".less", "Less")]

/-- SKIP_DIRECTORIES from file_processor.py (18 literal names). -/
def SKIP_DIRECTORIES : List String :=
  ["node_modules", "dist", "build", ".git", "out", "coverage",
   ".next", ".nuxt", "bin", "obj", "target", "vendor",
   "venv", ".venv", "env", ".env", "__pycache__", ".pytest_cache"]

/-- MAX_FILE_SIZE_BYTES = 200 * 1024. -/
def MAX_FILE_SIZE_BYTES : Nat := 200 * 1024

/-- DEFAULT_BATCH_SIZE = 5. -/
def DEFAULT_BATCH_SIZE : Nat := 5

/-- A directory tree entry as seen by `Path.iterdir` (children listed in
iteration order). -/
inductive FSEntry where
  | file (name : String)
  | dir (name : String) (children : List FSEntry)

/-- Name of an entry. -/
def FSEntry.name : FSEntry → String
  | .file n => n
  | .dir n _ => n

/-- GitignoreParser construction: keep stripped lines that are nonempty and
do not start with a comment mark. -/
def gitignorePatterns (lines : List String) : List String :=
  (lines.map stripStr).filter (fun l => l ≠ "" && !(startsWithChar l '#'))

/-- GitignoreParser.should_ignore: does any pattern fnmatch the path? -/
def shouldIgnore (patterns : List String) (path : String) : Bool :=
  patterns.any (fun pat => fnmatchStr path pat)

/-- Iteration of `scan_directory`'s loop body as the code executes.

In the source, for every item that survives the gitignore check the loop
evaluates `item.is_directory()`.  `pathlib.Path` has no attribute
`is_directory` (the method is `is_dir`), so this raises `AttributeError`,
which the enclosing `except Exception` swallows after logging — aborting
the loop for that directory with nothing appended and no recursion ever
performed.  Items skipped by gitignore before that point are passed over
normally. -/
def scan_directory (patterns : List String) (dirRel : String) :
    List FSEntry → List String
  | [] => []
  | e :: rest =>
    let rel := joinRel dirRel e.name
    if shouldIgnore patterns rel then scan_directory patterns dirRel rest
    else []

/-- find_code_files as the source behaves: parse the root `.gitignore`
(`none` when absent) and run the (crashing) scan over the root's entries.
Paths are reported relative to the root. -/
def find_code_files (gitignoreLines : Option (List String))
    (rootEntries : List FSEntry) : List String :=
  let patterns := gitignorePatterns (gitignoreLines.getD [])
  scan_directory patterns "" rootEntries

/-- Is a file name a code file (lowercased extension a key of the table)? -/
def isCodeFileName (n : String) : Bool :=
  (EXTENSION_TO_LANGUAGE.lookup (lowerStr (suffixOf n))).isSome

/-- Modelled from the spec: the discovery walk §4.2 describes — identical
to `scan_directory` except that the directory test works (`is_dir`), so
skip-set pruning, recursion, and extension filtering actually run.  Fuel
bounds the number of tree nodes visited. -/
def scan_directory_intended (patterns : List String) :
    Nat → String → List FSEntry → List String
  | 0, _, _ => []
  | _ + 1, _, [] => []
  | fuel + 1, dirRel, e :: rest =>
    let tail := scan_directory_intended patterns fuel dirRel rest
    let rel := joinRel dirRel e.name
    if shouldIgnore patterns rel then tail
    else
      match e with
      | .dir n children =>
        (if n ∈ SKIP_DIRECTORIES then []
         else scan_directory_intended patterns fuel rel children) ++ tail
      | .file n => (if isCodeFileName n then [rel] else []) ++ tail

/-- Modelled from the spec: whole-tree discovery with working `is_dir`. -/
def find_code_files_intended (fuel : Nat) (gitignoreLines : Option (List String))
    (rootEntries : List FSEntry) : List String :=
  let patterns := gitignorePatterns (gitignoreLines.getD [])
  scan_directory_intended patterns fuel "" rootEntries

/-- The root of testable property 5: files a.py, b.txt, c.js and
node_modules/d.py, no .gitignore. -/
def exampleRoot : List FSEntry :=
  [.file "a.py", .file "b.txt", .file "c.js",
   .dir "node_modules" [.file "d.py"]]

/-! ## file_processor.py: single-file summarization -/

/-- Error kind tags placed in the result dict by file_processor.py. -/
inductive ErrKind where
  | file_too_large
  | decode_error
  | processing_error
  | batch_error
deriving Repr, DecidableEq

/-- Stats sub-dict of a successful summary result. -/
structure Stats where
  lines : Nat
  characters : Nat
  size_bytes : Nat
deriving Repr, DecidableEq

/-- Result dict of `summarize_file` / `summarize_files_batch`.  Keys the
code omits in a branch are modelled as `none`. -/
structure SummaryResult where
  file_path : String
  language : Option String
  summary : String
  stats : Option Stats
  error : Option ErrKind
deriving Repr, DecidableEq

/-- Exceptions a file read can raise: UnicodeDecodeError or anything else. -/
inductive ReadExc where
  | unicodeDecodeError
  | otherExc (msg : String)
deriving Repr, DecidableEq

/-- One file as the filesystem presents it to `summarize_file`: the result
of `Path.stat().st_size` (exception message on failure) and of reading it
as UTF-8 text. -/
structure FileModel where
  path : String
  statRes : Except String Nat
  readRes : Except ReadExc String

/-- The `processing_error` result built in the final `except` clause. -/
def procErr (p m : String) : SummaryResult :=
  { file_path := p, language := none,
    summary := "Error processing file: " ++ m, stats := none,
    error := some .processing_error }

/-- The `file_too_large` result. -/
def tooLargeResult (p : String) : SummaryResult :=
  { file_path := p, language := none,
    summary := "File is too large to summarize.", stats := none,
    error := some .file_too_large }

/-- The `decode_error` result. -/
def decodeErrResult (p : String) : SummaryResult :=
  { file_path := p, language := none,
    summary := "Could not read file (appears to be binary).", stats := none,
    error := some .decode_error }

/-- Number of newline characters in a string (Python `content.count('\n')`). -/
def countNewlines (s : String) : Nat :=
  s.data.countP (fun c => c == '\n')

/-- Language resolved from the lowercased extension, default Unknown. -/
def languageFor (path : String) : String :=
  (EXTENSION_TO_LANGUAGE.lookup (lowerStr (suffixOf path))).getD "Unknown"

/-- summarize_file from file_processor.py.  `llm content language` models
`await llm.summarize(content, language, options)`: `.error m` is a raised
exception with text `m` (caught by the broad `except`), `.ok s` the
summary.  The whole body sits in one `try`: a stat failure or any non-
decode failure lands in the final `except Exception` clause. -/
def summarize_file (f : FileModel)
    (llm : String → String → Except String String) : SummaryResult :=
  match f.statRes with
  | .error m => procErr f.path m
  | .ok size =>
    if size > MAX_FILE_SIZE_BYTES then tooLargeResult f.path
    else
      match f.readRes with
      | .error .unicodeDecodeError => decodeErrResult f.path
      | .error (.otherExc m) => procErr f.path m
      | .ok content =>
        let language := languageFor f.path
        match llm content language with
        | .error m => procErr f.path m
        | .ok summary =>
          { file_path := f.path, language := some language,
            summary := summary,
            stats := some ⟨countNewlines content + 1, content.length, size⟩,
            error := none }

/-! ## file_processor.py: batch processing -/

/-- Outcome of one task in `asyncio.gather(..., return_exceptions=True)`:
either the per-file result dict, or an exception instance with text `msg`
(for a task that raised beyond what `summarize_file` catches). -/
inductive TaskOut where
  | res (r : SummaryResult)
  | exc (msg : String)

/-- The per-outcome handling of the gather results: an exception becomes a
`batch_error` record at that file's position. -/
def batchHandle : String × TaskOut → SummaryResult
  | (_, .res r) => r
  | (p, .exc m) =>
    { file_path := p, language := none,
      summary := "Batch processing failed: " ++ m, stats := none,
      error := some .batch_error }

/-- Loop body of summarize_files_batch: process `take b`, recurse on
`drop b`; the boolean recorded per chunk is whether `i + batch_size <
len(file_paths)` held, i.e. whether `asyncio.sleep(1)` ran after that
chunk.  Fuel bounds the number of chunks (the list length suffices). -/
def sfbGo (b : Nat) : Nat → List (String × TaskOut) →
    List SummaryResult × List Bool
  | _, [] => ([], [])
  | 0, _ => ([], [])
  | fuel + 1, fs =>
    let r := sfbGo b fuel (fs.drop b)
    ((fs.take b).map batchHandle ++ r.1, (!(fs.drop b).isEmpty) :: r.2)

/-- summarize_files_batch from file_processor.py over the given tasks
(each file paired with its task outcome), with batch size `b` =
`options.get('batch_size', DEFAULT_BATCH_SIZE)`.  Returns the ordered
result list and, per chunk, whether a 1-second pause followed it. -/
def summarize_files_batch (b : Nat) (tasks : List (String × TaskOut)) :
    List SummaryResult × List Bool :=
  sfbGo b tasks.length tasks

/-- A sample successful per-file result, for concrete runs. -/
def sampleRes (p s : String) : SummaryResult :=
  { file_path := p, language := some "Python", summary := s, stats := none,
    error := none }

/-! ## gemini_llm.py: retry executor -/

/-- RetryConfig from gemini_llm.py, delays as exact rationals. -/
structure RetryConfig where
  max_retries : Nat := 3
  initial_delay : ℚ := 1
  max_delay : ℚ := 10
  backoff_factor : ℚ := 2

/-- The default RetryConfig (the policy GeminiLLM uses when none is given). -/
def defaultRetryConfig : RetryConfig := {}

/-- Outcome of one attempt of the wrapped operation `func`: success, a
raised LLMError (with its `is_retryable` flag), or any other exception
with text `msg`. -/
inductive Attempt where
  | ok (v : String)
  | llmErr (msg : String) (is_retryable : Bool)
  | exc (msg : String)

/-- Is this attempt outcome a failure? -/
def Attempt.isFailure : Attempt → Bool
  | .ok _ => false
  | _ => true

/-- Retryability as with_retry determines it: an LLMError reports its own
flag; any other exception is retryable unless its lowercased text contains
the substring token-limit or too-large. -/
def attemptRetryable : Attempt → Bool
  | .ok _ => true
  | .llmErr _ r => r
  | .exc m =>
    !(strContains (lowerStr m) "token limit" || strContains (lowerStr m) "too large")

/-- Backoff delay before the retry that follows attempt `k`:
min(initial_delay * backoff_factor^k, max_delay). -/
def delayFor (cfg : RetryConfig) (k : Nat) : ℚ :=
  min (cfg.initial_delay * cfg.backoff_factor ^ k) cfg.max_delay

/-- Loop of with_retry at attempt index `k` with `fuel` attempts still to
come after this one (`fuel = max_retries - k`, so `fuel = 0` is the last
attempt).  On a failure that is not the last attempt and is retryable, the
slept duration `delay + jitter` is recorded and the loop continues.
Returns the final outcome and the list of sleeps performed. -/
def withRetryGo (cfg : RetryConfig) (attempts : Nat → Attempt)
    (jitter : Nat → ℚ) : Nat → Nat → Except Attempt String × List ℚ
  | k, fuel =>
    match attempts k with
    | .ok v => (.ok v, [])
    | e =>
      match fuel with
      | 0 => (.error e, [])
      | fuel + 1 =>
        if attemptRetryable e then
          let r := withRetryGo cfg attempts jitter (k + 1) fuel
          (r.1, (delayFor cfg k + jitter k) :: r.2)
        else (.error e, [])

/-- with_retry from gemini_llm.py: attempts 0..max_retries; `jitter k` is
the sampled value `delay * 0.2 * (2*random() - 1)` of attempt `k`. -/
def with_retry (cfg : RetryConfig) (attempts : Nat → Attempt)
    (jitter : Nat → ℚ) : Except Attempt String × List ℚ :=
  withRetryGo cfg attempts jitter 0 cfg.max_retries

/-! ## gemini_llm.py: provider call and error classification -/

/-- LLMError as a value: message plus is_retryable flag. -/
structure LLMErrorV where
  msg : String
  is_retryable : Bool
deriving Repr, DecidableEq

/-- The substring-based classification in _make_request's except clause,
applied to `str(e)` of whatever exception reached it. -/
def classify_error (m : String) : LLMErrorV :=
  let low := lowerStr m
  if strContains low "quota" || strContains low "rate limit" then
    ⟨"Rate limit exceeded: " ++ m, true⟩
  else if strContains low "token" || strContains low "too large" then
    ⟨"Content too large: " ++ m, false⟩
  else if strContains low "api key" || strContains low "authentication" then
    ⟨"Authentication error: " ++ m, false⟩
  else ⟨"API error: " ++ m, true⟩

/-- Provider response as _make_request reads it: `text` (`none` models a
response with no text) and the block reason carried by a truthy
`prompt_feedback`. -/
structure GenResponse where
  text : Option String
  block_reason : Option String

/-- One provider round trip: a response object, or a raised exception. -/
inductive ProviderResult where
  | response (r : GenResponse)
  | raises (msg : String)

/-- The message of the LLMError _make_request raises inside its `try` when
the response carries no text. -/
def noTextMsg (r : GenResponse) : String :=
  match r.block_reason with
  | some reason => "Content blocked: " ++ reason
  | none => "Empty response from Gemini"

/-- _make_request from gemini_llm.py.  Both the no-text LLMError raises
and any provider exception happen inside the `try`, so every failure is
caught by the function's own `except Exception` clause and reclassified by
`classify_error` before reaching the retry executor. -/
def make_request (pr : ProviderResult) : Except LLMErrorV String :=
  let inner : Except String String :=
    match pr with
    | .raises m => .error m
    | .response r =>
      match r.text with
      | none => .error (noTextMsg r)
      | some t => if t = "" then .error (noTextMsg r) else .ok t
  match inner with
  | .ok t => .ok t
  | .error m => .error (classify_error m)

/-! ## settings.py: validated configuration -/

/-- SummaryOptions (validated): detail_level and max_length. -/
structure SummaryOptions where
  detail_level : String
  max_length : Int
deriving Repr, DecidableEq

/-- Config (validated): api_key, port, summary_options. -/
structure Config where
  api_key : String
  port : Int
  summary_options : SummaryOptions
deriving Repr, DecidableEq

/-- A partial summary_options dict (keys may be absent). -/
structure SOPatch where
  detail_level : Option String := none
  max_length : Option Int := none
deriving Repr, DecidableEq

/-- Pydantic construction of SummaryOptions from a partial dict: defaults
medium / 500, regex (low|medium|high) on detail_level, 0 < max_length ≤
2000. -/
def mkSummaryOptions (p : SOPatch) : Except String SummaryOptions :=
  let dl := p.detail_level.getD "medium"
  let ml := p.max_length.getD 500
  if ¬(dl = "low" ∨ dl = "medium" ∨ dl = "high") then
    .error "detail_level does not match (low|medium|high)"
  else if ¬(0 < ml ∧ ml ≤ 2000) then
    .error "max_length out of range"
  else .ok ⟨dl, ml⟩

/-- Pydantic construction of Config from a partial dict: defaults api_key
empty / port 24312; a non-empty api_key must have at least 10 characters;
0 < port ≤ 65535; nested SummaryOptions validated from its dict. -/
def mkConfig (api_key : Option String) (port : Option Int)
    (so : Option SOPatch) : Except String Config :=
  let key := api_key.getD ""
  let pt := port.getD 24312
  if key ≠ "" ∧ key.length < 10 then
    .error "API key appears to be too short"
  else if ¬(0 < pt ∧ pt ≤ 65535) then
    .error "port out of range"
  else
    match mkSummaryOptions (so.getD {}) with
    | .error m => .error m
    | .ok sOpts => .ok ⟨key, pt, sOpts⟩

/-- Config() with all defaults. -/
def defaultConfig : Config := ⟨"", 24312, ⟨"medium", 500⟩⟩

/-! ## settings.py: ConfigManager state machine -/

/-- The process environment as the manager reads it.  `portVar` is the
parsed integer value of PORT when that variable is set (the claims never
set PORT, so its string-to-int conversion is not modelled further).
`diskWritable` is whether writing config.json succeeds (an IOError is
logged and swallowed). -/
structure Env where
  googleApiKey : Option String
  portVar : Option Int
  diskWritable : Bool

/-- Truthiness of an environment value: unset or empty is falsy. -/
def envTruthy (o : Option String) : Option String :=
  match o with
  | some s => if s = "" then none else some s
  | none => none

/-- Content of config.json as a partial dict. -/
structure FileConfig where
  api_key : Option String := none
  port : Option Int := none
  summary_options : Option SOPatch := none
deriving Repr, DecidableEq

/-- The persisted file: absent, unparseable, or a stored JSON object. -/
inductive ConfigFile where
  | absent
  | malformed
  | stored (c : FileConfig)
deriving Repr, DecidableEq

/-- ConfigManager's mutable state: the cached Config and the file. -/
structure MgrState where
  cache : Option Config
  file : ConfigFile
deriving Repr, DecidableEq

/-- _load_from_file: missing or malformed file loads as the empty dict. -/
def load_from_file : ConfigFile → FileConfig
  | .stored c => c
  | _ => {}

/-- get_config from settings.py: return the cache if populated; otherwise
load the file, overlay GOOGLE_API_KEY (via `or`, so an empty env value
falls through) and PORT, construct/validate a Config, cache it.  A
validation failure propagates and leaves the cache unpopulated. -/
def get_config (env : Env) (s : MgrState) : Except String Config × MgrState :=
  match s.cache with
  | some c => (.ok c, s)
  | none =>
    let fc := load_from_file s.file
    let api_key :=
      match envTruthy env.googleApiKey with
      | some k => k
      | none => fc.api_key.getD ""
    let port :=
      match env.portVar with
      | some p => p
      | none => fc.port.getD 24312
    match mkConfig (some api_key) (some port) fc.summary_options with
    | .error m => (.error m, s)
    | .ok c => (.ok c, { s with cache := some c })

/-- A partial update map passed to update_config.  The configure tool
always sends summary_options as a full dict, modelled as a full
SummaryOptions value. -/
structure Updates where
  api_key : Option String := none
  port : Option Int := none
  summary_options : Option SummaryOptions := none

/-- _save_to_file of the merged dict: api_key is blanked in the written
file whenever GOOGLE_API_KEY is set (truthy); an IOError is swallowed,
leaving the previous file in place. -/
def save_to_file (env : Env) (s : MgrState) (api_key : String) (port : Int)
    (so : SummaryOptions) : MgrState :=
  let savedKey := if (envTruthy env.googleApiKey).isSome then "" else api_key
  let written : FileConfig :=
    ⟨some savedKey, some port, some ⟨some so.detail_level, some so.max_length⟩⟩
  if env.diskWritable then { s with file := ConfigFile.stored written }
  else s

/-- update_config from settings.py: read the current config (loading it if
needed), merge the updates over its dict, revalidate, replace the cache,
persist the merged dict. -/
def update_config (env : Env) (s : MgrState) (u : Updates) :
    Except String Config × MgrState :=
  match get_config env s with
  | (.error m, s1) => (.error m, s1)
  | (.ok cur, s1) =>
    let mKey := u.api_key.getD cur.api_key
    let mPort := u.port.getD cur.port
    let mSO := u.summary_options.getD cur.summary_options
    match mkConfig (some mKey) (some mPort)
        (some ⟨some mSO.detail_level, some mSO.max_length⟩) with
    | .error m => (.error m, s1)
    | .ok c =>
      (.ok c, save_to_file env { s1 with cache := some c } mKey mPort mSO)

/-- reset_config from settings.py: cache the default Config and delete the
persisted file if present. -/
def reset_config (_s : MgrState) : MgrState :=
  { cache := some defaultConfig, file := .absent }

/-! ## mcp/server.py: tool dispatch -/

/-- Python exceptions the server raises or meets; `message` is `str(e)`. -/
inductive PyExc where
  | valueError (msg : String)
  | fileNotFoundError (msg : String)
  | attributeError (msg : String)
  | otherError (msg : String)
deriving Repr, DecidableEq

/-- The text `str(e)` of an exception. -/
def PyExc.message : PyExc → String
  | .valueError m => m
  | .fileNotFoundError m => m
  | .attributeError m => m
  | .otherError m => m

/-- Server state: the lazily created LLM client (`some ()` when cached)
and the ConfigManager state it shares. -/
structure ServerState where
  llm : Option Unit
  cfg : MgrState

/-- _ensure_llm: reuse the cached client, else read the config and require
a non-empty api_key before constructing one. -/
def ensure_llm (env : Env) (st : ServerState) :
    Except PyExc Unit × ServerState :=
  match st.llm with
  | some _ => (.ok (), st)
  | none =>
    match get_config env st.cfg with
    | (.error m, cfg2) => (.error (.otherError m), { st with cfg := cfg2 })
    | (.ok c, cfg2) =>
      if c.api_key = "" then
        (.error (.valueError
          "API key not configured. Use the configure tool to set it."),
         { st with cfg := cfg2 })
      else (.ok (), { llm := some (), cfg := cfg2 })

/-- Arguments of the summarize_file tool, together with what the
filesystem holds at that path. -/
structure SFileArgs where
  file_path : String
  pathExists : Bool
  statRes : Except String Nat
  readRes : Except ReadExc String

/-- Response formatting of a successful summarize_file tool call. -/
def formatFileResponse (r : SummaryResult) : String :=
  let base := "File: " ++ r.file_path ++ "\n" ++
    "Language: " ++ r.language.getD "Unknown" ++ "\n" ++
    "Summary: " ++ r.summary ++ "\n"
  match r.stats with
  | none => base
  | some st =>
    base ++ "\nFile Statistics:\n" ++
      "- Lines: " ++ toString st.lines ++ "\n" ++
      "- Characters: " ++ toString st.characters ++ "\n" ++
      "- Size: " ++ toString st.size_bytes ++ " bytes"

/-- _handle_summarize_file: ensure the client, NotFound when the path does
not exist, delegate to summarize_file, format (Error: {summary} when the
result carries an error kind). -/
def handle_summarize_file (env : Env)
    (llmFn : String → String → Except String String) (st : ServerState)
    (a : SFileArgs) : Except PyExc (List String) × ServerState :=
  match ensure_llm env st with
  | (.error e, st2) => (.error e, st2)
  | (.ok _, st2) =>
    if !a.pathExists then
      (.error (.fileNotFoundError ("File not found: " ++ a.file_path)), st2)
    else
      let r := summarize_file ⟨a.file_path, a.statRes, a.readRes⟩ llmFn
      if r.error.isSome then (.ok ["Error: " ++ r.summary], st2)
      else (.ok [formatFileResponse r], st2)

/-- Arguments of the summarize_directory tool, with whether the directory
exists. -/
structure SDirArgs where
  directory : String
  dirExists : Bool
  output_file : Option String

/-- _handle_summarize_directory as the source executes.  The guard is
`not directory.exists() or not directory.is_directory()`: a missing path
short-circuits into the ValueError, but for every existing path the right
operand evaluates `is_directory()`, which `pathlib.Path` does not have
(the method is `is_dir`), so an AttributeError is raised and the
delegation to summarize_directory is never reached.  (Python renders the
message with quotes around PosixPath and is_directory.) -/
def handle_summarize_directory (env : Env) (st : ServerState)
    (a : SDirArgs) : Except PyExc (List String) × ServerState :=
  match ensure_llm env st with
  | (.error e, st2) => (.error e, st2)
  | (.ok _, st2) =>
    if !a.dirExists then
      (.error (.valueError ("Directory not found: " ++ a.directory)), st2)
    else
      (.error (.attributeError
        "PosixPath object has no attribute is_directory"), st2)

/-- Arguments of the configure tool (absent keys as none). -/
structure ConfArgs where
  api_key : Option String := none
  port : Option Int := none
  detail_level : Option String := none
  max_length : Option Int := none

/-- Report lines of a configure call that applied updates, in the
argument order api_key, port, detail_level, max_length. -/
def confReport (a : ConfArgs) : String :=
  "Configuration updated:\n" ++
  (match a.api_key with | some _ => "- api_key: ***\n" | none => "") ++
  (match a.port with | some v => "- port: " ++ toString v ++ "\n" | none => "") ++
  (match a.detail_level with
   | some v => "- detail_level: " ++ v ++ "\n" | none => "") ++
  (match a.max_length with
   | some v => "- max_length: " ++ toString v ++ "\n" | none => "")

/-- Tail of _handle_configure once the update map is built: apply
update_config, reset the cached LLM client when api_key was among the
arguments, report the updated fields. -/
def runConfUpdate (env : Env) (st : ServerState) (u : Updates)
    (a : ConfArgs) : Except PyExc (List String) × ServerState :=
  match update_config env st.cfg u with
  | (.error m, cfg2) => (.error (.otherError m), { st with cfg := cfg2 })
  | (.ok _, cfg2) =>
    (.ok [confReport a],
     ⟨if a.api_key.isSome then none else st.llm, cfg2⟩)

/-- _handle_configure: with no non-None argument, report the current
settings (api_key masked); otherwise fold detail_level/max_length into a
copy of the current summary options and apply all updates. -/
def handle_configure (env : Env) (st : ServerState) (a : ConfArgs) :
    Except PyExc (List String) × ServerState :=
  if a.api_key = none ∧ a.port = none ∧ a.detail_level = none ∧
      a.max_length = none then
    match get_config env st.cfg with
    | (.error m, cfg2) => (.error (.otherError m), { st with cfg := cfg2 })
    | (.ok c, cfg2) =>
      (.ok ["Current configuration:\n" ++
        "- API Key: " ++ (if c.api_key ≠ "" then "***" else "Not set") ++ "\n" ++
        "- Port: " ++ toString c.port ++ "\n" ++
        "- Detail Level: " ++ c.summary_options.detail_level ++ "\n" ++
        "- Max Length: " ++ toString c.summary_options.max_length],
       { st with cfg := cfg2 })
  else
    if a.detail_level.isSome || a.max_length.isSome then
      match get_config env st.cfg with
      | (.error m, cfg2) => (.error (.otherError m), { st with cfg := cfg2 })
      | (.ok c, cfg2) =>
        let so : SummaryOptions :=
          ⟨a.detail_level.getD c.summary_options.detail_level,
           a.max_length.getD c.summary_options.max_length⟩
        runConfUpdate env { st with cfg := cfg2 }
          ⟨a.api_key, a.port, some so⟩ a
    else
      runConfUpdate env st ⟨a.api_key, a.port, none⟩ a

/-- A tool call as received by the dispatcher. -/
inductive ToolCall where
  | sFile (a : SFileArgs)
  | sDir (a : SDirArgs)
  | conf (a : ConfArgs)
  | unknown (name : String)

/-- The try body of call_tool: dispatch on the tool name; an unknown name
raises ValueError. -/
def dispatch_tool (env : Env)
    (llmFn : String → String → Except String String) (st : ServerState) :
    ToolCall → Except PyExc (List String) × ServerState
  | .sFile a => handle_summarize_file env llmFn st a
  | .sDir a => handle_summarize_directory env st a
  | .conf a => handle_configure env st a
  | .unknown n => (.error (.valueError ("Unknown tool: " ++ n)), st)

/-- call_tool from mcp/server.py: any exception raised while handling the
call is caught, logged, and turned into a successful response whose text
is Error: {message}. -/
def call_tool (env : Env)
    (llmFn : String → String → Except String String) (st : ServerState)
    (t : ToolCall) : List String × ServerState :=
  match dispatch_tool env llmFn st t with
  | (.ok texts, st2) => (texts, st2)
  | (.error e, st2) => (["Error: " ++ e.message], st2)

/-! ## Theorems -/

/-- Associativity of string concatenation (used to normalize response
texts). -/
theorem strAppend_assoc (a b c : String) : a ++ b ++ c = a ++ (b ++ c) := by
  cases a with | mk la =>
  cases b with | mk lb =>
  cases c with | mk lc =>
  show String.mk (la ++ lb ++ lc) = String.mk (la ++ (lb ++ lc))
  rw [List.append_assoc]

/-- C1: discovery on the spec's example root.  The claim says discovery
returns exactly [a.py, c.js]; the code instead hits `AttributeError`
(`is_directory` is not a pathlib method) on the first entry, the broad
`except` swallows it, and discovery returns the empty list.  The intended
walk (with `is_dir`) does return [a.py, c.js]. -/
theorem find_code_files_example_bug :
    find_code_files none exampleRoot = [] ∧
    find_code_files_intended 10 none exampleRoot = ["a.py", "c.js"] := by
  constructor
  · rfl
  · rfl

/-- C3: a provider response with no text but an explicit block reason.
The claim says the failure reaching the retry executor is a non-retryable
error with message "Content blocked: {reason}".  In the code the
LLMError raised for the blocked response sits inside the same `try` whose
`except Exception` clause catches it, so it is reclassified: the error
that reaches with_retry has message "API error: Content blocked: SAFETY"
and is marked retryable. -/
theorem make_request_blocked_reclassified_bug :
    make_request (.response ⟨none, some "SAFETY"⟩) =
      .error ⟨"API error: Content blocked: SAFETY", true⟩ := by
  rfl

/-- C2: the summarize_directory tool.  A missing directory does fail with
the InvalidInput-style ValueError, but for an existing directory the
guard evaluates `directory.is_directory()` — not a pathlib method — so
the handler raises AttributeError and never delegates to the
processing-engine orchestration; the dispatcher reports it as a text
error. -/
theorem summarize_directory_tool_existing_dir_bug :
    call_tool ⟨none, none, true⟩ (fun _ _ => .ok "sum")
        ⟨some (), ⟨some defaultConfig, .absent⟩⟩ (.sDir ⟨".", true, none⟩) =
      (["Error: PosixPath object has no attribute is_directory"],
       ⟨some (), ⟨some defaultConfig, .absent⟩⟩) ∧
    call_tool ⟨none, none, true⟩ (fun _ _ => .ok "sum")
        ⟨some (), ⟨some defaultConfig, .absent⟩⟩
        (.sDir ⟨"missing", false, none⟩) =
      (["Error: Directory not found: missing"],
       ⟨some (), ⟨some defaultConfig, .absent⟩⟩) := by
  exact ⟨rfl, rfl⟩

/-- C10: centralized tool-call dispatch.  Every exception raised while
handling a call becomes a successful response with text Error: {message}
(never a transport-level failure); an unknown tool name fails with the
InvalidInput ValueError; summarize_file on a nonexistent path fails with
the NotFound error, reported as text. -/
theorem call_tool_spec :
    (∀ env llmFn st t e st2,
      dispatch_tool env llmFn st t = (.error e, st2) →
      call_tool env llmFn st t = (["Error: " ++ e.message], st2)) ∧
    (∀ env llmFn st n,
      (call_tool env llmFn st (.unknown n)).1 = ["Error: Unknown tool: " ++ n]) ∧
    (∀ env llmFn st a, st.llm = some () → a.pathExists = false →
      (call_tool env llmFn st (.sFile a)).1 =
        ["Error: File not found: " ++ a.file_path]) := by
  refine ⟨?_, ?_, ?_⟩
  · intro env llmFn st t e st2 h
    simp [call_tool, h]
  · intro env llmFn st n
    have hpre : ("Error: " ++ "Unknown tool: " : String) = "Error: Unknown tool: " := by
      decide
    have hs : ("Error: " ++ ("Unknown tool: " ++ n) : String) =
        "Error: Unknown tool: " ++ n := by
      rw [← strAppend_assoc, hpre]
    simp [call_tool, dispatch_tool, PyExc.message, hs]
  · intro env llmFn st a hllm hex
    have hpre : ("Error: " ++ "File not found: " : String) = "Error: File not found: " := by
      decide
    have hs : ("Error: " ++ ("File not found: " ++ a.file_path) : String) =
        "Error: File not found: " ++ a.file_path := by
      rw [← strAppend_assoc, hpre]
    simp [call_tool, dispatch_tool, handle_summarize_file, ensure_llm, hllm,
      hex, PyExc.message, hs]

/-- Witness for C10 at concrete inputs. -/
theorem call_tool_spec_witness :
    call_tool ⟨none, none, true⟩ (fun _ _ => .ok "sum")
        ⟨some (), ⟨some defaultConfig, .absent⟩⟩
        (.sDir ⟨"missing2", false, none⟩) =
      (["Error: " ++ (PyExc.valueError "Directory not found: missing2").message],
       ⟨some (), ⟨some defaultConfig, .absent⟩⟩) ∧
    (call_tool ⟨none, none, true⟩ (fun _ _ => .ok "sum")
        ⟨some (), ⟨some defaultConfig, .absent⟩⟩ (.unknown "bogus")).1 =
      ["Error: Unknown tool: " ++ "bogus"] ∧
    (call_tool ⟨none, none, true⟩ (fun _ _ => .ok "sum")
        ⟨some (), ⟨some defaultConfig, .absent⟩⟩
        (.sFile ⟨"/nope.py", false, .ok 0, .ok ""⟩)).1 =
      ["Error: File not found: " ++ "/nope.py"] := by
  refine ⟨?_, ?_, ?_⟩
  · exact call_tool_spec.1 ⟨none, none, true⟩ (fun _ _ => .ok "sum")
      ⟨some (), ⟨some defaultConfig, .absent⟩⟩ (.sDir ⟨"missing2", false, none⟩)
      (.valueError "Directory not found: missing2")
      ⟨some (), ⟨some defaultConfig, .absent⟩⟩ rfl
  · exact call_tool_spec.2.1 ⟨none, none, true⟩ (fun _ _ => .ok "sum")
      ⟨some (), ⟨some defaultConfig, .absent⟩⟩ "bogus"
  · exact call_tool_spec.2.2 ⟨none, none, true⟩ (fun _ _ => .ok "sum")
      ⟨some (), ⟨some defaultConfig, .absent⟩⟩ ⟨"/nope.py", false, .ok 0, .ok ""⟩
      rfl rfl

/-- Unfolding of the batch loop: with positive batch size and enough fuel
it maps the handler over all tasks and records a pause after every chunk
except the last. -/
theorem sfbGo_spec (b : Nat) (hb : 0 < b) :
    ∀ (fuel : Nat) (fs : List (String × TaskOut)), fs.length ≤ fuel →
      sfbGo b fuel fs =
        (fs.map batchHandle,
         if fs.length = 0 then ([] : List Bool)
         else List.replicate ((fs.length + b - 1) / b - 1) true ++ [false]) := by
  intro fuel
  induction fuel with
  | zero =>
    intro fs hfs
    have hnil : fs = [] := List.eq_nil_of_length_eq_zero (Nat.le_zero.mp hfs)
    subst hnil
    rfl
  | succ fuel ih =>
    intro fs hfs
    cases fs with
    | nil => rfl
    | cons hd tl =>
      have hlen : (hd :: tl).length = tl.length + 1 := rfl
      have hdroplen : ((hd :: tl).drop b).length = (tl.length + 1) - b := by
        simp [List.length_drop]
      simp only [sfbGo]
      rw [ih ((hd :: tl).drop b) (by rw [hdroplen]; omega)]
      refine Prod.ext ?_ ?_
      · show ((hd :: tl).take b).map batchHandle ++
            ((hd :: tl).drop b).map batchHandle = (hd :: tl).map batchHandle
        rw [← List.map_append, List.take_append_drop]
      · show (!((hd :: tl).drop b).isEmpty) ::
            (if ((hd :: tl).drop b).length = 0 then ([] : List Bool)
             else List.replicate ((((hd :: tl).drop b).length + b - 1) / b - 1)
               true ++ [false]) =
          if (hd :: tl).length = 0 then ([] : List Bool)
          else List.replicate (((hd :: tl).length + b - 1) / b - 1) true ++
            [false]
        rw [hdroplen, hlen]
        by_cases hnb : tl.length + 1 ≤ b
        · have hdropnil : (hd :: tl).drop b = [] := by
            apply List.eq_nil_of_length_eq_zero
            rw [hdroplen]
            omega
          have hdiv : (tl.length + 1 + b - 1) / b = 1 := by
            apply Nat.div_eq_of_lt_le (by omega) (by omega)
          rw [hdropnil, hdiv, if_pos (by omega : tl.length + 1 - b = 0),
            if_neg (by omega : ¬(tl.length + 1 = 0))]
          simp
        · have hdropne : ((hd :: tl).drop b).isEmpty = false := by
            cases hdrop : (hd :: tl).drop b with
            | nil =>
              have := congrArg List.length hdrop
              rw [hdroplen] at this
              simp at this
              omega
            | cons c cs => rfl
          have e1 : tl.length + 1 - b + b - 1 = tl.length := by omega
          have e2 : tl.length + 1 + b - 1 = tl.length + b := by omega
          have e3 : (tl.length + b) / b = tl.length / b + 1 :=
            Nat.add_div_right _ hb
          have hq : 1 ≤ tl.length / b := (Nat.one_le_div_iff hb).mpr (by omega)
          obtain ⟨q, hqe⟩ : ∃ q, tl.length / b = q + 1 :=
            ⟨tl.length / b - 1, by omega⟩
          rw [hdropne, e1, e2, e3, hqe]
          have h0 : ¬(tl.length + 1 - b = 0) := by omega
          rw [if_neg h0, if_neg (by omega : ¬(tl.length + 1 = 0))]
          simp [List.replicate_succ]

/-- C5: summarize_files_batch over n tasks with positive batch size b
returns the results in input order (one per task, a task that raised
replaced by the batch_error record at its position), processing in
consecutive chunks of size b, with a 1-second pause after every chunk
except the last (so ceil(n/b) chunks and ceil(n/b) - 1 pauses). -/
theorem summarize_files_batch_spec (b : Nat)
    (tasks : List (String × TaskOut)) (hb : 0 < b) :
    (summarize_files_batch b tasks).1 = tasks.map batchHandle ∧
    (∀ i p m, tasks.get? i = some (p, .exc m) →
      (summarize_files_batch b tasks).1.get? i =
        some { file_path := p, language := none,
               summary := "Batch processing failed: " ++ m, stats := none,
               error := some .batch_error }) ∧
    (tasks = [] → (summarize_files_batch b tasks).2 = []) ∧
    (tasks ≠ [] →
      (summarize_files_batch b tasks).2 =
        List.replicate ((tasks.length + b - 1) / b - 1) true ++ [false]) := by
  have h := sfbGo_spec b hb tasks.length tasks le_rfl
  refine ⟨?_, ?_, ?_, ?_⟩
  · show (sfbGo b tasks.length tasks).1 = tasks.map batchHandle
    rw [h]
  · intro i p m hi
    show (sfbGo b tasks.length tasks).1.get? i = _
    rw [h]
    simp only [List.get?_map, hi, Option.map_some]
    rfl
  · intro hnil
    subst hnil
    rfl
  · intro hne
    show (sfbGo b tasks.length tasks).2 = _
    rw [h]
    rw [if_neg (by simpa using List.length_pos_iff_ne_nil.mpr hne |>.ne')]

/-- Witness for C5: batch size 2 over 5 tasks, the second of which raised. -/
theorem summarize_files_batch_spec_witness :
    (summarize_files_batch 2
      [("a.py", .res (sampleRes "a.py" "sa")), ("b.py", .exc "boom"),
       ("c.py", .res (sampleRes "c.py" "sc")),
       ("d.py", .res (sampleRes "d.py" "sd")),
       ("e.py", .res (sampleRes "e.py" "se"))]).2 = [true, true, false] ∧
    (summarize_files_batch 2
      [("a.py", .res (sampleRes "a.py" "sa")), ("b.py", .exc "boom"),
       ("c.py", .res (sampleRes "c.py" "sc")),
       ("d.py", .res (sampleRes "d.py" "sd")),
       ("e.py", .res (sampleRes "e.py" "se"))]).1.get? 1 =
      some { file_path := "b.py", language := none, summary := "Batch processing failed: " ++ "boom", stats := none, error := some .batch_error } := by
  constructor
  · exact (summarize_files_batch_spec 2 _ (by decide)).2.2.2
      (by exact List.cons_ne_nil _ _)
  · exact (summarize_files_batch_spec 2 _ (by decide)).2.1 1 "b.py" "boom" rfl

/-- C6: summarize_file.  A file over MAX_FILE_SIZE_BYTES (204800) yields
the file_too_large result, independent of the file content and of the LLM
client; for a file within the limit the result is decode_error exactly
when reading raises UnicodeDecodeError; a stat failure, any other read
failure, or an LLM failure yields processing_error with the exception
text; on success the record carries the language resolved from the
lowercased extension (Unknown by default), lines = newline count + 1,
characters = text length and the stat size. -/
theorem summarize_file_spec :
    (∀ f llm size, f.statRes = .ok size → MAX_FILE_SIZE_BYTES < size →
      summarize_file f llm = tooLargeResult f.path ∧
      (∀ (read2 : Except ReadExc String)
         (llm2 : String → String → Except String String),
        summarize_file { f with readRes := read2 } llm2 =
          tooLargeResult f.path)) ∧
    (∀ f llm size, f.statRes = .ok size → size ≤ MAX_FILE_SIZE_BYTES →
      ((summarize_file f llm).error = some .decode_error ↔
        f.readRes = .error .unicodeDecodeError)) ∧
    (∀ f llm m, f.statRes = .error m →
      summarize_file f llm = procErr f.path m) ∧
    (∀ f llm size m, f.statRes = .ok size → size ≤ MAX_FILE_SIZE_BYTES →
      f.readRes = .error (.otherExc m) →
      summarize_file f llm = procErr f.path m) ∧
    (∀ f llm size content m, f.statRes = .ok size →
      size ≤ MAX_FILE_SIZE_BYTES → f.readRes = .ok content →
      llm content (languageFor f.path) = .error m →
      summarize_file f llm = procErr f.path m) ∧
    (∀ f llm size content s, f.statRes = .ok size →
      size ≤ MAX_FILE_SIZE_BYTES → f.readRes = .ok content →
      llm content (languageFor f.path) = .ok s →
      summarize_file f llm =
        { file_path := f.path, language := some (languageFor f.path),
          summary := s,
          stats := some ⟨countNewlines content + 1, content.length, size⟩,
          error := none }) := by
  refine ⟨?_, ?_, ?_, ?_, ?_, ?_⟩
  · intro f llm size hstat hsize
    constructor
    · simp [summarize_file, hstat, hsize]
    · intro read2 llm2
      simp [summarize_file, hstat, hsize]
  · intro f llm size hstat hsize
    have hnot : ¬(MAX_FILE_SIZE_BYTES < size) := Nat.not_lt.mpr hsize
    cases hread : f.readRes with
    | error e =>
      cases e with
      | unicodeDecodeError =>
        simp [summarize_file, hstat, hread, hnot, decodeErrResult]
      | otherExc m =>
        simp [summarize_file, hstat, hread, hnot, procErr]
    | ok content =>
      cases hllm : llm content (languageFor f.path) with
      | error m =>
        simp [summarize_file, hstat, hread, hnot, hllm, procErr]
      | ok s =>
        simp [summarize_file, hstat, hread, hnot, hllm]
  · intro f llm m hstat
    simp [summarize_file, hstat]
  · intro f llm size m hstat hsize hread
    simp [summarize_file, hstat, hread, Nat.not_lt.mpr hsize]
  · intro f llm size content m hstat hsize hread hllm
    simp [summarize_file, hstat, hread, Nat.not_lt.mpr hsize, hllm]
  · intro f llm size content s hstat hsize hread hllm
    simp [summarize_file, hstat, hread, Nat.not_lt.mpr hsize, hllm]

/-- Witness for C6 at concrete inputs (an oversized file, a binary file, a
missing file, an I/O failure, an LLM failure, and a successful run on a
two-line Python file). -/
theorem summarize_file_spec_witness :
    summarize_file ⟨"big.py", .ok 204801, .ok "x"⟩ (fun _ _ => .ok "S") =
      tooLargeResult "big.py" ∧
    (summarize_file ⟨"bin.py", .ok 10, .error .unicodeDecodeError⟩
      (fun _ _ => .ok "S")).error = some .decode_error ∧
    summarize_file ⟨"gone.py", .error "No such file or directory", .ok ""⟩
      (fun _ _ => .ok "S") = procErr "gone.py" "No such file or directory" ∧
    summarize_file ⟨"locked.py", .ok 10, .error (.otherExc "Permission denied")⟩
      (fun _ _ => .ok "S") = procErr "locked.py" "Permission denied" ∧
    summarize_file ⟨"a.py", .ok 10, .ok "code"⟩ (fun _ _ => .error "API error: boom") =
      procErr "a.py" "API error: boom" ∧
    summarize_file ⟨"a.py", .ok 7, .ok "x\ny"⟩ (fun _ _ => .ok "S") =
      { file_path := "a.py", language := some (languageFor "a.py"),
        summary := "S", stats := some ⟨countNewlines "x\ny" + 1,
          ("x\ny" : String).length, 7⟩, error := none } := by
  refine ⟨?_, ?_, ?_, ?_, ?_, ?_⟩
  · exact (summarize_file_spec.1 ⟨"big.py", .ok 204801, .ok "x"⟩
      (fun _ _ => .ok "S") 204801 rfl (by decide)).1
  · exact (summarize_file_spec.2.1 ⟨"bin.py", .ok 10, .error .unicodeDecodeError⟩
      (fun _ _ => .ok "S") 10 rfl (by decide)).mpr rfl
  · exact summarize_file_spec.2.2.1 ⟨"gone.py", .error "No such file or directory", .ok ""⟩
      (fun _ _ => .ok "S") "No such file or directory" rfl
  · exact summarize_file_spec.2.2.2.1
      ⟨"locked.py", .ok 10, .error (.otherExc "Permission denied")⟩
      (fun _ _ => .ok "S") 10 "Permission denied" rfl (by decide) rfl
  · exact summarize_file_spec.2.2.2.2.1 ⟨"a.py", .ok 10, .ok "code"⟩
      (fun _ _ => .error "API error: boom") 10 "code" "API error: boom" rfl
      (by decide) rfl rfl
  · exact summarize_file_spec.2.2.2.2.2 ⟨"a.py", .ok 7, .ok "x\ny"⟩
      (fun _ _ => .ok "S") 7 "x\ny" "S" rfl (by decide) rfl rfl

/-- Unfolding: a successful attempt returns immediately. -/
theorem wrg_ok (cfg : RetryConfig) (attempts : Nat → Attempt)
    (jitter : Nat → ℚ) (k fuel : Nat) (v : String)
    (h : attempts k = .ok v) :
    withRetryGo cfg attempts jitter k fuel = (.ok v, []) := by
  conv_lhs => rw [withRetryGo, h]

/-- Unfolding: a failure on the last attempt propagates. -/
theorem wrg_last (cfg : RetryConfig) (attempts : Nat → Attempt)
    (jitter : Nat → ℚ) (k : Nat)
    (he : (attempts k).isFailure = true) :
    withRetryGo cfg attempts jitter k 0 = (.error (attempts k), []) := by
  cases h : attempts k with
  | ok v => rw [h] at he; simp [Attempt.isFailure] at he
  | llmErr m r =>
    conv_lhs => rw [withRetryGo, h]
  | exc m =>
    conv_lhs => rw [withRetryGo, h]

/-- Unfolding: a retryable failure before the last attempt sleeps
delay + jitter and continues. -/
theorem wrg_retry (cfg : RetryConfig) (attempts : Nat → Attempt)
    (jitter : Nat → ℚ) (k fuel : Nat)
    (he : (attempts k).isFailure = true)
    (hr : attemptRetryable (attempts k) = true) :
    withRetryGo cfg attempts jitter k (fuel + 1) =
      ((withRetryGo cfg attempts jitter (k + 1) fuel).1,
       (delayFor cfg k + jitter k) ::
         (withRetryGo cfg attempts jitter (k + 1) fuel).2) := by
  cases h : attempts k with
  | ok v => rw [h] at he; simp [Attempt.isFailure] at he
  | llmErr m r =>
    rw [h] at hr
    simp only [attemptRetryable] at hr
    subst hr
    conv_lhs => rw [withRetryGo, h]
    rfl
  | exc m =>
    rw [h] at hr
    conv_lhs => rw [withRetryGo, h]
    simp [hr]

/-- Unfolding: a non-retryable failure before the last attempt propagates
with no sleep. -/
theorem wrg_noretry (cfg : RetryConfig) (attempts : Nat → Attempt)
    (jitter : Nat → ℚ) (k fuel : Nat)
    (he : (attempts k).isFailure = true)
    (hr : attemptRetryable (attempts k) = false) :
    withRetryGo cfg attempts jitter k (fuel + 1) =
      (.error (attempts k), []) := by
  cases h : attempts k with
  | ok v => rw [h] at he; simp [Attempt.isFailure] at he
  | llmErr m r =>
    rw [h] at hr
    simp only [attemptRetryable] at hr
    subst hr
    conv_lhs => rw [withRetryGo, h]
    rfl
  | exc m =>
    rw [h] at hr
    conv_lhs => rw [withRetryGo, h]
    simp [hr]

/-- When every attempt up to the last fails retryably and the last fails
too, the last failure is what propagates. -/
theorem wrg_all_fail (cfg : RetryConfig) (attempts : Nat → Attempt)
    (jitter : Nat → ℚ) :
    ∀ fuel k,
      (∀ j, j < fuel → (attempts (k + j)).isFailure = true ∧
        attemptRetryable (attempts (k + j)) = true) →
      (attempts (k + fuel)).isFailure = true →
      (withRetryGo cfg attempts jitter k fuel).1 =
        .error (attempts (k + fuel)) := by
  intro fuel
  induction fuel with
  | zero =>
    intro k _ hlast
    rw [wrg_last cfg attempts jitter k (by simpa using hlast)]
    simp
  | succ fuel ih =>
    intro k hall hlast
    have h0 := hall 0 (Nat.succ_pos _)
    rw [wrg_retry cfg attempts jitter k fuel (by simpa using h0.1)
      (by simpa using h0.2)]
    have hall2 : ∀ j, j < fuel → (attempts (k + 1 + j)).isFailure = true ∧
        attemptRetryable (attempts (k + 1 + j)) = true := by
      intro j hj
      have e2 : k + 1 + j = k + (j + 1) := by omega
      rw [e2]
      exact hall (j + 1) (by omega)
    have hlast2 : (attempts (k + 1 + fuel)).isFailure = true := by
      have e3 : k + 1 + fuel = k + (fuel + 1) := by omega
      rw [e3]
      exact hlast
    have := ih (k + 1) hall2 hlast2
    have e4 : k + 1 + fuel = k + (fuel + 1) := by omega
    rw [e4] at this
    exact this

/-- C4: the retry executor.  An operation failing twice retryably and
then succeeding, under the default policy, returns the success value
after exactly two sleeps; the sleep after attempt k is
min(initial_delay * backoff_factor^k, max_delay) plus that attempt's
jitter, and under the ±20 percent jitter bound each sleep lies in
[0, 12] = [0, max_delay plus 20 percent].  An operation whose first
failure is non-retryable (an LLMError with is_retryable false, or another
exception whose text contains token-limit or too-large) propagates
immediately with no sleep.  When all attempts fail retryably, the failure
of the attempt at index max_retries propagates. -/
theorem with_retry_spec :
    (∀ (attempts : Nat → Attempt) (jitter : Nat → ℚ) (v : String),
      (attempts 0).isFailure = true → attemptRetryable (attempts 0) = true →
      (attempts 1).isFailure = true → attemptRetryable (attempts 1) = true →
      attempts 2 = .ok v →
      |jitter 0| ≤ 1/5 * delayFor defaultRetryConfig 0 →
      |jitter 1| ≤ 1/5 * delayFor defaultRetryConfig 1 →
      with_retry defaultRetryConfig attempts jitter =
        (.ok v, [delayFor defaultRetryConfig 0 + jitter 0,
                 delayFor defaultRetryConfig 1 + jitter 1]) ∧
      (∀ s ∈ (with_retry defaultRetryConfig attempts jitter).2,
        0 ≤ s ∧ s ≤ 12)) ∧
    (∀ (cfg : RetryConfig) (attempts : Nat → Attempt) (jitter : Nat → ℚ),
      (attempts 0).isFailure = true → attemptRetryable (attempts 0) = false →
      with_retry cfg attempts jitter = (.error (attempts 0), [])) ∧
    (∀ (cfg : RetryConfig) (attempts : Nat → Attempt) (jitter : Nat → ℚ),
      (∀ j, j < cfg.max_retries → (attempts j).isFailure = true ∧
        attemptRetryable (attempts j) = true) →
      (attempts cfg.max_retries).isFailure = true →
      (with_retry cfg attempts jitter).1 =
        .error (attempts cfg.max_retries)) := by
  refine ⟨?_, ?_, ?_⟩
  · intro attempts jitter v hf0 hr0 hf1 hr1 h2 hj0 hj1
    have hd0 : delayFor defaultRetryConfig 0 = 1 := by
      norm_num [delayFor, defaultRetryConfig]
    have hd1 : delayFor defaultRetryConfig 1 = 2 := by
      norm_num [delayFor, defaultRetryConfig]
    have hrun : with_retry defaultRetryConfig attempts jitter =
        (.ok v, [delayFor defaultRetryConfig 0 + jitter 0,
                 delayFor defaultRetryConfig 1 + jitter 1]) := by
      show withRetryGo defaultRetryConfig attempts jitter 0 3 = _
      rw [show (3 : Nat) = 2 + 1 from rfl,
        wrg_retry defaultRetryConfig attempts jitter 0 2 hf0 hr0,
        show (2 : Nat) = 1 + 1 from rfl,
        wrg_retry defaultRetryConfig attempts jitter 1 1 hf1 hr1,
        wrg_ok defaultRetryConfig attempts jitter 2 1 v h2]
    refine ⟨hrun, ?_⟩
    intro s hs
    rw [hrun] at hs
    rw [hd0] at hj0
    rw [hd1] at hj1
    have hb0 := abs_le.mp hj0
    have hb1 := abs_le.mp hj1
    simp only [List.mem_cons, List.not_mem_nil, or_false] at hs
    rcases hs with hs | hs
    · rw [hs, hd0]
      constructor <;> [linarith [hb0.1]; linarith [hb0.2]]
    · rw [hs, hd1]
      constructor <;> [linarith [hb1.1]; linarith [hb1.2]]
  · intro cfg attempts jitter hf hr
    show withRetryGo cfg attempts jitter 0 cfg.max_retries = _
    cases hmr : cfg.max_retries with
    | zero => exact wrg_last cfg attempts jitter 0 hf
    | succ n => exact wrg_noretry cfg attempts jitter 0 n hf hr
  · intro cfg attempts jitter hall hlast
    have h := wrg_all_fail cfg attempts jitter cfg.max_retries 0
      (by intro j hj; simpa using hall j hj) (by simpa using hlast)
    simpa using h

/-- Witness for C4: a rate-limit failure, then a connection failure, then
success under the default policy with jitter 1/10; a content-too-large
failure propagating immediately; four retryable failures exhausting the
default policy. -/
theorem with_retry_spec_witness :
    with_retry defaultRetryConfig
        (fun k => if k = 0 then .llmErr "Rate limit exceeded: quota" true
          else if k = 1 then .exc "connection reset" else .ok "done")
        (fun _ => 1/10) =
      (.ok "done",
       [delayFor defaultRetryConfig 0 + 1/10,
        delayFor defaultRetryConfig 1 + 1/10]) ∧
    with_retry defaultRetryConfig
        (fun _ => .llmErr "Content too large: token limit" false)
        (fun _ => 0) =
      (.error (.llmErr "Content too large: token limit" false), []) ∧
    (with_retry defaultRetryConfig (fun _ => .exc "boom") (fun _ => 0)).1 =
      .error (.exc "boom") := by
  refine ⟨?_, ?_, ?_⟩
  · exact ((with_retry_spec.1
      (fun k => if k = 0 then .llmErr "Rate limit exceeded: quota" true
        else if k = 1 then .exc "connection reset" else .ok "done")
      (fun _ => 1/10) "done" (by decide) (by decide) (by decide) (by decide)
      rfl
      (by
        show |(1/10 : ℚ)| ≤ 1/5 * delayFor defaultRetryConfig 0
        rw [abs_of_pos (by norm_num : (0:ℚ) < 1/10)]
        norm_num [delayFor, defaultRetryConfig])
      (by
        show |(1/10 : ℚ)| ≤ 1/5 * delayFor defaultRetryConfig 1
        rw [abs_of_pos (by norm_num : (0:ℚ) < 1/10)]
        norm_num [delayFor, defaultRetryConfig]))).1
  · exact with_retry_spec.2.1 defaultRetryConfig
      (fun _ => .llmErr "Content too large: token limit" false) (fun _ => 0)
      rfl rfl
  · exact with_retry_spec.2.2 defaultRetryConfig (fun _ => .exc "boom")
      (fun _ => 0) (by intro j hj; exact ⟨rfl, rfl⟩) rfl

/-- Extraction: a Config built by mkConfig from an explicit api_key
carries that api_key. -/
theorem mkConfig_ok_api_key (k : String) (p : Int) (so : Option SOPatch)
    (c : Config) (h : mkConfig (some k) (some p) so = .ok c) :
    c.api_key = k := by
  simp only [mkConfig, Option.getD_some] at h
  split_ifs at h
  split at h
  · simp at h
  · rename_i sOpts hso
    injection h with h2
    rw [← h2]

/-- C7 counterexample: GOOGLE_API_KEY is set (truthy) in the environment,
yet after reset_config the cached default Config is returned, so
get_config yields api_key "" rather than the environment value — the
claim's "including after reset_config" fails on the code. -/
theorem get_config_env_after_reset_cex :
    envTruthy (Env.googleApiKey ⟨some "envkey12345", none, true⟩) =
      some "envkey12345" ∧
    (get_config ⟨some "envkey12345", none, true⟩
        (reset_config ⟨none, .stored ⟨some "storedkey123", none, none⟩⟩)).1 =
      .ok defaultConfig ∧
    defaultConfig.api_key ≠ "envkey12345" := by
  refine ⟨rfl, rfl, by decide⟩

/-- C7 (amended): get_config is idempotent — a repeated call without an
intervening update returns the same Config and state — and whenever the
cache is unpopulated and GOOGLE_API_KEY is set (truthy), the Config
get_config builds carries the environment value as api_key, overriding
any stored file value.  (After reset_config the cache holds the default
Config, so the environment override does not reapply until the cache is
cleared — see the counterexample.) -/
theorem get_config_idempotent_env_amended :
    (∀ env s c s2, get_config env s = (.ok c, s2) →
      get_config env s2 = (.ok c, s2)) ∧
    (∀ env s k c s2, s.cache = none →
      envTruthy env.googleApiKey = some k →
      get_config env s = (.ok c, s2) → c.api_key = k) := by
  constructor
  · intro env s c s2 h
    cases hc : s.cache with
    | some c0 =>
      have h2 : get_config env s = (.ok c0, s) := by simp [get_config, hc]
      rw [h2, Prod.mk.injEq] at h
      obtain ⟨h1, hs⟩ := h
      injection h1 with h1
      subst h1
      subst hs
      simp [get_config, hc]
    | none =>
      simp only [get_config, hc] at h
      split at h
      · rw [Prod.mk.injEq] at h
        exact absurd h.1 (by simp)
      · rename_i c1 hm
        rw [Prod.mk.injEq] at h
        obtain ⟨h1, hs⟩ := h
        injection h1 with h1
        subst h1
        subst hs
        simp [get_config]
  · intro env s k c s2 hc henv h
    simp only [get_config, hc, henv] at h
    split at h
    · rw [Prod.mk.injEq] at h
      exact absurd h.1 (by simp)
    · rename_i c1 hm
      rw [Prod.mk.injEq] at h
      obtain ⟨h1, _⟩ := h
      injection h1 with h1
      subst h1
      exact mkConfig_ok_api_key _ _ _ _ hm

/-- Witness for C7 (amended) at concrete inputs: a stored file key is
overridden by the set environment key on first load, and the second call
returns the identical Config and state. -/
theorem get_config_idempotent_env_amended_witness :
    get_config ⟨some "envkey12345", none, true⟩
        ⟨some ⟨"envkey12345", 8080, ⟨"medium", 500⟩⟩,
         .stored ⟨some "storedkey123", some 8080, none⟩⟩ =
      (.ok ⟨"envkey12345", 8080, ⟨"medium", 500⟩⟩,
       ⟨some ⟨"envkey12345", 8080, ⟨"medium", 500⟩⟩,
        .stored ⟨some "storedkey123", some 8080, none⟩⟩) ∧
    Config.api_key ⟨"envkey12345", 8080, ⟨"medium", 500⟩⟩ = "envkey12345" := by
  constructor
  · exact get_config_idempotent_env_amended.1
      ⟨some "envkey12345", none, true⟩
      ⟨none, .stored ⟨some "storedkey123", some 8080, none⟩⟩
      ⟨"envkey12345", 8080, ⟨"medium", 500⟩⟩
      ⟨some ⟨"envkey12345", 8080, ⟨"medium", 500⟩⟩,
       .stored ⟨some "storedkey123", some 8080, none⟩⟩ rfl
  · exact get_config_idempotent_env_amended.2
      ⟨some "envkey12345", none, true⟩
      ⟨none, .stored ⟨some "storedkey123", some 8080, none⟩⟩
      "envkey12345" ⟨"envkey12345", 8080, ⟨"medium", 500⟩⟩
      ⟨some ⟨"envkey12345", 8080, ⟨"medium", 500⟩⟩,
       .stored ⟨some "storedkey123", some 8080, none⟩⟩ rfl rfl rfl

/-- C9: update_config merges the partial update map over the current
config's dict, revalidates it through Config construction, replaces the
cache with the new Config, and persists the merged dict; whenever
GOOGLE_API_KEY is set (truthy) — in particular whenever the api_key is
sourced from the environment — the api_key written to the file is the
empty string. -/
theorem update_config_spec (env : Env) (s : MgrState) (u : Updates)
    (c : Config) (s2 : MgrState)
    (h : update_config env s u = (.ok c, s2)) :
    ∃ cur s1, get_config env s = (.ok cur, s1) ∧
      mkConfig (some (u.api_key.getD cur.api_key))
        (some (u.port.getD cur.port))
        (some ⟨some (u.summary_options.getD cur.summary_options).detail_level,
               some (u.summary_options.getD cur.summary_options).max_length⟩) =
        .ok c ∧
      s2.cache = some c ∧
      (env.diskWritable = true →
        s2.file = .stored
          ⟨some (if (envTruthy env.googleApiKey).isSome then ""
                 else u.api_key.getD cur.api_key),
           some (u.port.getD cur.port),
           some ⟨some (u.summary_options.getD cur.summary_options).detail_level,
                 some (u.summary_options.getD cur.summary_options).max_length⟩⟩) ∧
      ((envTruthy env.googleApiKey).isSome = true → env.diskWritable = true →
        ∃ fc, s2.file = .stored fc ∧ fc.api_key = some "") := by
  simp only [update_config] at h
  split at h
  · rw [Prod.mk.injEq] at h
    exact absurd h.1 (by simp)
  · rename_i cur s1 hg
    split at h
    · rw [Prod.mk.injEq] at h
      exact absurd h.1 (by simp)
    · rename_i c1 hm
      rw [Prod.mk.injEq] at h
      obtain ⟨h1, hs⟩ := h
      injection h1 with h1
      subst h1
      refine ⟨cur, s1, hg, hm, ?_, ?_, ?_⟩
      · rw [← hs]
        simp only [save_to_file]
        split <;> rfl
      · intro hdw
        rw [← hs]
        simp [save_to_file, hdw]
      · intro hsome hdw
        rw [← hs]
        simp only [save_to_file, hdw, hsome, if_true, ite_true]
        exact ⟨_, rfl, rfl⟩

/-- Witness for C9: updating only the port while GOOGLE_API_KEY is set;
the persisted file carries api_key "". -/
theorem update_config_spec_witness :
    ∃ cur s1, get_config ⟨some "envkey12345", none, true⟩ ⟨none, .absent⟩ =
        (.ok cur, s1) ∧
      mkConfig (some ((none : Option String).getD cur.api_key))
        (some ((some (9999 : Int)).getD cur.port))
        (some ⟨some (((none : Option SummaryOptions).getD
                 cur.summary_options)).detail_level,
               some (((none : Option SummaryOptions).getD
                 cur.summary_options)).max_length⟩) =
        .ok ⟨"envkey12345", 9999, ⟨"medium", 500⟩⟩ ∧
      MgrState.cache ⟨some ⟨"envkey12345", 9999, ⟨"medium", 500⟩⟩,
          .stored ⟨some "", some 9999, some ⟨some "medium", some 500⟩⟩⟩ =
        some ⟨"envkey12345", 9999, ⟨"medium", 500⟩⟩ ∧
      (Env.diskWritable ⟨some "envkey12345", none, true⟩ = true →
        MgrState.file ⟨some ⟨"envkey12345", 9999, ⟨"medium", 500⟩⟩,
            .stored ⟨some "", some 9999, some ⟨some "medium", some 500⟩⟩⟩ =
          .stored
            ⟨some (if (envTruthy (Env.googleApiKey
                     ⟨some "envkey12345", none, true⟩)).isSome then ""
                   else (none : Option String).getD cur.api_key),
             some ((some (9999 : Int)).getD cur.port),
             some ⟨some (((none : Option SummaryOptions).getD
                      cur.summary_options)).detail_level,
                   some (((none : Option SummaryOptions).getD
                      cur.summary_options)).max_length⟩⟩) ∧
      ((envTruthy (Env.googleApiKey ⟨some "envkey12345", none, true⟩)).isSome
          = true →
        Env.diskWritable ⟨some "envkey12345", none, true⟩ = true →
        ∃ fc, MgrState.file ⟨some ⟨"envkey12345", 9999, ⟨"medium", 500⟩⟩,
            .stored ⟨some "", some 9999, some ⟨some "medium", some 500⟩⟩⟩ =
          .stored fc ∧ fc.api_key = some "") := by
  exact update_config_spec ⟨some "envkey12345", none, true⟩ ⟨none, .absent⟩
    ⟨none, some 9999, none⟩ ⟨"envkey12345", 9999, ⟨"medium", 500⟩⟩
    ⟨some ⟨"envkey12345", 9999, ⟨"medium", 500⟩⟩,
     .stored ⟨some "", some 9999, some ⟨some "medium", some 500⟩⟩⟩ rfl

/-- C8: Config construction validates all field bounds: success for an
enumerated detail_level, max_length in (0, 2000], api_key empty or of
length at least 10 and port in (0, 65535]; failure for max_length 0 or
2001, a detail_level outside the enumeration, a port outside (0, 65535],
and an api_key of length 1 through 9. -/
theorem config_validation_spec :
    (∀ (dl : String) (ml : Int) (key : String) (pt : Int),
      (dl = "low" ∨ dl = "medium" ∨ dl = "high") →
      0 < ml → ml ≤ 2000 → (key = "" ∨ 10 ≤ key.length) →
      0 < pt → pt ≤ 65535 →
      mkConfig (some key) (some pt) (some ⟨some dl, some ml⟩) =
        .ok ⟨key, pt, ⟨dl, ml⟩⟩) ∧
    (∀ (key : String) (pt : Int) (dl : String),
      (mkConfig (some key) (some pt) (some ⟨some dl, some 0⟩)).isOk = false) ∧
    (∀ (key : String) (pt : Int) (dl : String),
      (mkConfig (some key) (some pt) (some ⟨some dl, some 2001⟩)).isOk = false) ∧
    (∀ (key : String) (pt : Int) (dl : String) (ml : Option Int),
      ¬(dl = "low" ∨ dl = "medium" ∨ dl = "high") →
      (mkConfig (some key) (some pt) (some ⟨some dl, ml⟩)).isOk = false) ∧
    (∀ (key : String) (pt : Int) (so : Option SOPatch),
      ¬(0 < pt ∧ pt ≤ 65535) →
      (mkConfig (some key) (some pt) so).isOk = false) ∧
    (∀ (key : String) (pt : Int) (so : Option SOPatch),
      1 ≤ key.length → key.length ≤ 9 →
      (mkConfig (some key) (some pt) so).isOk = false) := by
  refine ⟨?_, ?_, ?_, ?_, ?_, ?_⟩
  · intro dl ml key pt hdl h1 h2 hkey h3 h4
    have hkeyc : ¬(key ≠ "" ∧ key.length < 10) := by
      rcases hkey with h | h
      · exact fun hc => hc.1 h
      · exact fun hc => by omega
    simp only [mkConfig, mkSummaryOptions, Option.getD_some]
    rw [if_neg hkeyc, if_neg (not_not_intro ⟨h3, h4⟩), if_neg (not_not_intro hdl),
      if_neg (not_not_intro ⟨h1, h2⟩)]
  · intro key pt dl
    simp only [mkConfig, mkSummaryOptions, Option.getD_some]
    split_ifs <;> first | rfl | omega
  · intro key pt dl
    simp only [mkConfig, mkSummaryOptions, Option.getD_some]
    split_ifs <;> first | rfl | omega
  · intro key pt dl ml hdl
    simp only [mkConfig, mkSummaryOptions, Option.getD_some]
    split_ifs <;> first | rfl | tauto
  · intro key pt so hp
    simp only [mkConfig]
    split_ifs <;> first | rfl | tauto
  · intro key pt so h1 h9
    have hne : key ≠ "" := by
      intro he
      rw [he] at h1
      exact absurd h1 (by decide)
    simp only [mkConfig, Option.getD_some]
    rw [if_pos ⟨hne, by omega⟩]
    rfl

/-- Witness for C8 at concrete inputs. -/
theorem config_validation_spec_witness :
    mkConfig (some "") (some 24312) (some ⟨some "low", some 2000⟩) =
      .ok ⟨"", 24312, ⟨"low", 2000⟩⟩ ∧
    (mkConfig (some "") (some 24312) (some ⟨some "medium", some 0⟩)).isOk = false ∧
    (mkConfig (some "") (some 24312) (some ⟨some "medium", some 2001⟩)).isOk = false ∧
    (mkConfig (some "") (some 24312) (some ⟨some "extreme", some 500⟩)).isOk = false ∧
    (mkConfig (some "") (some 0) (some ⟨some "medium", some 500⟩)).isOk = false ∧
    (mkConfig (some "short") (some 24312) (some ⟨some "medium", some 500⟩)).isOk
      = false := by
  refine ⟨?_, ?_, ?_, ?_, ?_, ?_⟩
  · exact config_validation_spec.1 "low" 2000 "" 24312 (Or.inl rfl)
      (by decide) (by decide) (Or.inl rfl) (by decide) (by decide)
  · exact config_validation_spec.2.1 "" 24312 "medium"
  · exact config_validation_spec.2.2.1 "" 24312 "medium"
  · exact config_validation_spec.2.2.2.1 "" 24312 "extreme" (some 500)
      (by decide)
  · exact config_validation_spec.2.2.2.2.1 "" 0
      (some ⟨some "medium", some 500⟩) (by decide)
  · exact config_validation_spec.2.2.2.2.2 "short" 24312
      (some ⟨some "medium", some 500⟩) (by decide) (by decide)
